import Mathlib

/-!
Verification development for the blood_donor Home Assistant integration.

Shallow embedding conventions:
* calendar dates are modelled as integers (day numbers); `weekday d = d % 7`
  (Euclidean remainder) with the epoch chosen on a Monday, matching Python's
  Monday=0 convention;
* datetimes are modelled as integer seconds (`day * 86400 + secondsOfDay`) in
  the scheduler and as integer microseconds in the booking helper, matching
  the integer-microsecond representation of Python's `datetime`/`timedelta`
  arithmetic (a `timedelta(hours=h)` built from a float is an exact integer
  count of microseconds, and the float `total_seconds() / 3600` ranking key
  is strictly monotone in that count, so ordering and ties are preserved);
* a Python value that may raise is modelled with `PyResult`;
* network traffic is modelled by response traces: each HTTP request consumes
  the next element of a list of responses, and each `login()` call consumes
  the next element of a list of booleans (its success);
* JSON parsing of a response body is modelled by an `Option` field on the
  response: `none` stands for an unparsable body.
-/

namespace BloodDonor

/-- Result of running a piece of Python code that may raise an exception. -/
inductive PyResult (α : Type) where
  | ok (val : α)
  | exn (msg : String)
  deriving Repr, DecidableEq

/-! ## Generic list machinery: Python's stable sort and first-minimum selection -/

/-- Insert an element into a list sorted by key `k`, before the first element
with a strictly larger key.  Folding this over a list from the right yields a
stable sort, agreeing with Python's stable `list.sort` / `sorted`. -/
def insertK {α β : Type} [LinearOrder β] (k : α → β) (a : α) : List α → List α
  | [] => [a]
  | b :: bs => if k b < k a then b :: insertK k a bs else a :: b :: bs

/-- Stable insertion sort by key `k`; models Python's stable sort. -/
def sortK {α β : Type} [LinearOrder β] (k : α → β) (l : List α) : List α :=
  l.foldr (insertK k) []

/-- First element of the list attaining the minimal key (declarative form of
"minimum with ties broken by first-encountered order"). -/
def firstMinK {α β : Type} [LinearOrder β] (k : α → β) : List α → Option α
  | [] => none
  | a :: l =>
    match firstMinK k l with
    | none => some a
    | some b => if k b < k a then some b else some a

theorem insertK_ne_nil {α β : Type} [LinearOrder β] (k : α → β) (a : α) (l : List α) :
    insertK k a l ≠ [] := by
  cases l with
  | nil => simp [insertK]
  | cons b bs =>
    simp only [insertK]
    split <;> simp

theorem sortK_eq_nil_iff {α β : Type} [LinearOrder β] (k : α → β) (l : List α) :
    sortK k l = [] ↔ l = [] := by
  cases l with
  | nil => simp [sortK]
  | cons a l =>
    simp only [sortK, List.foldr]
    constructor
    · intro h
      exact absurd h (insertK_ne_nil k a _)
    · intro h
      exact absurd h (by simp)

theorem head_insertK {α β : Type} [LinearOrder β] (k : α → β) (a : α) (l : List α) :
    (insertK k a l).head? =
      match l.head? with
      | none => some a
      | some b => if k b < k a then some b else some a := by
  cases l with
  | nil => simp [insertK]
  | cons b bs =>
    by_cases hlt : k b < k a
    · simp [insertK, hlt]
    · simp [insertK, hlt]

/-- The head of the stable sort is exactly the first element attaining the
minimal key. -/
theorem head_sortK {α β : Type} [LinearOrder β] (k : α → β) (l : List α) :
    (sortK k l).head? = firstMinK k l := by
  induction l with
  | nil => simp [sortK, firstMinK]
  | cons a l ih =>
    have h1 : sortK k (a :: l) = insertK k a (sortK k l) := rfl
    rw [h1, head_insertK, ih]
    rfl

theorem firstMinK_eq_none {α β : Type} [LinearOrder β] (k : α → β) (l : List α) :
    firstMinK k l = none ↔ l = [] := by
  cases l with
  | nil => simp [firstMinK]
  | cons a l =>
    simp only [firstMinK]
    cases firstMinK k l with
    | none => simp
    | some c => by_cases hlt : k c < k a <;> simp [hlt]

theorem firstMinK_mem {α β : Type} [LinearOrder β] (k : α → β) (l : List α) (b : α)
    (h : firstMinK k l = some b) : b ∈ l := by
  induction l with
  | nil => simp [firstMinK] at h
  | cons a l ih =>
    simp only [firstMinK] at h
    cases hm : firstMinK k l with
    | none => rw [hm] at h; simp at h; simp [h]
    | some c =>
      rw [hm] at h
      by_cases hlt : k c < k a
      · simp [hlt] at h
        exact List.mem_cons_of_mem a (ih (h ▸ hm))
      · simp [hlt] at h
        simp [h]

theorem firstMinK_min {α β : Type} [LinearOrder β] (k : α → β) :
    ∀ (l : List α) (b : α), firstMinK k l = some b → ∀ s ∈ l, k b ≤ k s := by
  intro l
  induction l with
  | nil => intro b h; simp [firstMinK] at h
  | cons a l ih =>
    intro b h s hs
    simp only [firstMinK] at h
    cases hm : firstMinK k l with
    | none =>
      rw [hm] at h
      have hl : l = [] := (firstMinK_eq_none k l).mp hm
      simp at h
      subst hl
      simp at hs
      simp [hs, h]
    | some c =>
      rw [hm] at h
      rcases List.mem_cons.mp hs with hsa | hsl
      · rw [hsa]
        by_cases hlt : k c < k a
        · simp [hlt] at h
          exact le_of_lt (h ▸ hlt)
        · simp [hlt] at h
          simp [h]
      · by_cases hlt : k c < k a
        · simp [hlt] at h
          exact h ▸ ih c hm s hsl
        · simp [hlt] at h
          subst h
          exact le_trans (not_lt.mp hlt) (ih c hm s hsl)

theorem firstMinK_isSome {α β : Type} [LinearOrder β] (k : α → β) (l : List α)
    (h : l ≠ []) : ∃ b, firstMinK k l = some b := by
  cases l with
  | nil => exact absurd rfl h
  | cons a l =>
    simp only [firstMinK]
    cases firstMinK k l with
    | none => exact ⟨a, rfl⟩
    | some b => by_cases hlt : k b < k a <;> simp [hlt]

/-! ## Python-style string helpers -/

/-- Value of a list of decimal digit characters. -/
def digitsVal (l : List Char) : Nat :=
  l.foldl (fun n c => n * 10 + (c.toNat - ('0').toNat)) 0

/-- Model of Python's `int(s)` on a string: optional sign followed by at least
one decimal digit (whitespace/underscore forms are not exercised by this
code base).  `none` models a raised `ValueError`. -/
def pyInt (s : String) : Option Int :=
  match s.toList with
  | [] => none
  | c :: rest =>
    if c = '-' then
      if rest ≠ [] ∧ rest.all Char.isDigit then some (-(digitsVal rest : Int)) else none
    else if c = '+' then
      if rest ≠ [] ∧ rest.all Char.isDigit then some ((digitsVal rest : Int)) else none
    else
      if (c :: rest).all Char.isDigit then some ((digitsVal (c :: rest) : Int)) else none

/-- Model of Python's `str.zfill`: left-pad with zeros to the given width,
keeping a leading sign character in place. -/
def zfill (n : Nat) (s : String) : String :=
  if n ≤ s.length then s
  else
    match s.toList with
    | [] => String.mk (List.replicate n '0')
    | c :: rest =>
      if c = '-' ∨ c = '+' then
        String.mk (c :: (List.replicate (n - s.length) '0' ++ rest))
      else
        String.mk (List.replicate (n - s.length) '0' ++ (c :: rest))

/-- Remove every occurrence of a character, as Python's `str.replace(c, "")`. -/
def removeChar (c : Char) (s : String) : String :=
  String.mk (s.toList.filter (fun d => d ≠ c))

/-- First `n` characters of a string, as Python's `s[:n]`. -/
def strTake (n : Nat) (s : String) : String :=
  String.mk (s.toList.take n)

/-- Characters of a string from position `n`, as Python's `s[n:]`. -/
def strDrop (n : Nat) (s : String) : String :=
  String.mk (s.toList.drop n)

/-- Split a character list at every occurrence of `c`, as Python's
`str.split(c)`: the empty string yields one empty group, and separators at
the ends yield empty groups. -/
def pySplit (c : Char) : List Char → List (List Char)
  | [] => [[]]
  | d :: rest =>
    match pySplit c rest with
    | [] => [[]]
    | g :: gs => if d = c then [] :: g :: gs else (d :: g) :: gs

/-- Split a string on the colon character, as Python's `s.split(":")`. -/
def splitOnColon (s : String) : List String :=
  (pySplit ':' s.toList).map String.mk

/-- Join strings with colons, as Python's `":".join(parts)`. -/
def joinColon : List String → String
  | [] => ""
  | [p] => p
  | p :: ps => p ++ ":" ++ joinColon ps

/-! ## booking_helper.py, lines 39-55: normalize_time -/

/-- Embedding of `normalize_time` (booking_helper.py lines 39-55): `None`
maps to `"12:55"`; otherwise a trailing seconds component is stripped when
there are exactly two colons, all colons are removed, the result is
left-padded with zeros to 4 characters and re-split as `HH:MM`. -/
def normalize_time (timeInput : Option String) : String :=
  match timeInput with
  | none => "12:55"
  | some t0 =>
    let t := if t0.toList.count ':' = 2
             then joinColon ((splitOnColon t0).take 2)
             else t0
    let ts := removeChar ':' t
    let ts := zfill 4 ts
    strTake 2 ts ++ ":" ++ strDrop 2 ts

/-! ## booking_helper.py, lines 79-134: get_last_donation_date

Dates are abstracted to integer day numbers.  An appointment carries the
result of parsing its `session.sessionDate` field: `none` models a
`KeyError` / `ValueError` / `IndexError` during
`datetime.strptime(apt["session"]["sessionDate"].split("T")[0], "%Y-%m-%d")`,
which the source logs and skips. -/

/-- One entry of `coordinator.data["appointments"]`, reduced to the outcome of
parsing its session date. -/
structure Appt where
  sessionDateParse : Option Int
  deriving Repr, DecidableEq

/-- The coordinator's cached account snapshot, reduced to its appointment
list. -/
structure CoordData where
  appointments : List Appt
  deriving Repr, DecidableEq

/-- Maximum of a nonempty list of integers, as Python's `max`. -/
def listMax (x : Int) (xs : List Int) : Int :=
  xs.foldl max x

/-- Embedding of `get_last_donation_date` (booking_helper.py lines 79-134).
The coordinator data is taken after the staleness refresh of lines 86-87;
`none` data models `coordinator.data` still empty (line 89).  An empty
appointment list, or a list in which no session date parses, yields
`today - 60`; otherwise the maximum parsed date (past or future). -/
def get_last_donation_date (today : Int) (data : Option CoordData) : Option Int :=
  match data with
  | none => none
  | some d =>
    match d.appointments with
    | [] => some (today - 60)
    | _ :: _ =>
      match d.appointments.filterMap (fun a => a.sessionDateParse) with
      | [] => some (today - 60)
      | x :: xs => some (listMax x xs)

/-- Embedding of booking_helper.py lines 378-385: the earliest allowed date is
`last + min_days` when a last appointment date was found (`today` when the
coordinator had no data at all), clamped to be no earlier than `today`. -/
def earliest_allowed_date (today minDays : Int) (data : Option CoordData) : Int :=
  let lastDonationDate := get_last_donation_date today data
  let e :=
    match lastDonationDate with
    | some l => l + minDays
    | none => today
  max e today

/-! ## booking_helper.py, lines 368-408: target date resolution

`weekday d = d.emod 7` with the epoch on a Monday (Python: Monday=0 ...
Sunday=6). -/

/-- Weekday of an integer day number, Monday = 0 through Sunday = 6. -/
def weekday (d : Int) : Int := d % 7

/-- Embedding of booking_helper.py lines 395-405: number of days added to the
earliest allowed date to reach the requested weekday.  The `if days_to_add < 0`
branch of the source is kept although it is dead (Python `%` on a positive
modulus is never negative). -/
def days_to_add (currentIdx targetIdx : Int) : Int :=
  if currentIdx = targetIdx then 0
  else
    if (targetIdx - currentIdx) % 7 < 0 then (targetIdx - currentIdx) % 7 + 7
    else (targetIdx - currentIdx) % 7

/-- Embedding of booking_helper.py lines 388-407 for the day-of-week path:
starting from the earliest allowed date, advance to the next occurrence of the
requested weekday (0 days when it already matches). -/
def resolve_day_of_week (earliest : Int) (targetIdx : Int) : Int :=
  earliest + days_to_add (weekday earliest) targetIdx

/-- Embedding of the complete target-date resolution section of
`async_booking_helper_service` (booking_helper.py lines 368-408).  The block
at lines 388-408 is not indented under the `else` of line 372, so it executes
on every invocation; when `target_date` was supplied the local variable
`day_of_week` was never assigned (line 374 sits in the `else` branch only) and
line 391 `DAYS_OF_WEEK[day_of_week]` raises `UnboundLocalError`.  The case in
which neither argument is supplied is unreachable here, guarded by the check
at line 335. -/
def resolve_target_date (earliest : Int) (targetDate : Option Int)
    (targetDow : Option Int) : PyResult Int :=
  match targetDate with
  | some _ =>
      PyResult.exn "UnboundLocalError: local variable day_of_week referenced before assignment"
  | none =>
    match targetDow with
    | some dowIdx => PyResult.ok (resolve_day_of_week earliest dowIdx)
    | none => PyResult.exn "unreachable: guarded by the line 335 validation"

/-! ## Remote payload shapes (spec section 6) -/

/-- One element of a session's `periods` array. -/
structure RPeriod where
  availableSlots : Int
  deriving Repr, DecidableEq

/-- One element of the `sessions` array returned by `GET /api/sessions/...`. -/
structure RSession where
  sessionId : String
  sessionDate : String
  periods : List RPeriod
  deriving Repr, DecidableEq

/-- One element of the `slots` array returned by
`GET /api/appointments/.../slots`. -/
structure RSlot where
  time : String
  procedureDescription : String
  deriving Repr, DecidableEq

/-! ## Network model

Each HTTP request consumes the next element of a response trace.  A response
is either an HTTP answer (status, the parse outcome of its JSON body, and its
raw text) or an exception raised while performing the request (timeout,
connection failure).  Each `login()` call consumes the next element of a list
of booleans giving its outcome. -/

/-- A remote response with a body of parsed shape `α`; `body = none` on a 200
response models an unparsable JSON body. -/
inductive RResp (α : Type) where
  | http (status : Nat) (body : Option α) (text : String)
  | raise (e : String)
  deriving Repr, DecidableEq

/-- Outcome of one of the fetcher coroutines: a returned value, an exception
escaping the coroutine, or divergence (the response trace was exhausted, the
observable prefix of a non-terminating retry recursion). -/
inductive FetchOut (α : Type) where
  | val (a : α)
  | raise (e : String)
  | diverge
  deriving Repr, DecidableEq

/-- Embedding of `get_sessions_for_date` (booking_helper.py lines 136-175),
paired with the number of `login()` calls it performs.  On a 401 it logs in
again and, on login success, re-invokes itself with no retry bound (line 166);
on login failure it returns `[]`.  On a non-200 status it returns `[]`.  The
function body has no try/except, so a request exception or a JSON parse
failure escapes. -/
def get_sessions_for_date :
    List (RResp (List RSession)) → List Bool → FetchOut (List RSession) × Nat
  | [], _ => (FetchOut.diverge, 0)
  | r :: rs, logins =>
    match r with
    | RResp.raise e => (FetchOut.raise e, 0)
    | RResp.http status body _ =>
      if status = 401 then
        match logins with
        | [] => (FetchOut.diverge, 0)
        | b :: ls =>
          if b then
            let o := get_sessions_for_date rs ls
            (o.1, o.2 + 1)
          else (FetchOut.val [], 1)
      else if status ≠ 200 then (FetchOut.val [], 0)
      else
        match body with
        | none => (FetchOut.raise "JSONDecodeError", 0)
        | some sessions => (FetchOut.val sessions, 0)

/-- Embedding of `get_slots_for_session` (booking_helper.py lines 177-214),
structurally identical to `get_sessions_for_date`: unbounded 401 re-login
recursion, `[]` on login failure or non-200, and no try/except around request
or JSON parsing. -/
def get_slots_for_session :
    List (RResp (List RSlot)) → List Bool → FetchOut (List RSlot) × Nat
  | [], _ => (FetchOut.diverge, 0)
  | r :: rs, logins =>
    match r with
    | RResp.raise e => (FetchOut.raise e, 0)
    | RResp.http status body _ =>
      if status = 401 then
        match logins with
        | [] => (FetchOut.diverge, 0)
        | b :: ls =>
          if b then
            let o := get_slots_for_session rs ls
            (o.1, o.2 + 1)
          else (FetchOut.val [], 1)
      else if status ≠ 200 then (FetchOut.val [], 0)
      else
        match body with
        | none => (FetchOut.raise "JSONDecodeError", 0)
        | some slots => (FetchOut.val slots, 0)

/-- Embedding of `BloodDonorApi._get_account_details` (blood_donor.py lines
172-225), paired with its `login()` count.  Unlike the session/slot fetchers
it wraps everything in try/except, so timeouts, client errors and parse
failures yield `None` instead of raising; the 401 path re-invokes itself with
no retry bound (line 194). -/
def get_account_details :
    List (RResp CoordData) → List Bool → FetchOut (Option CoordData) × Nat
  | [], _ => (FetchOut.diverge, 0)
  | r :: rs, logins =>
    match r with
    | RResp.raise _ => (FetchOut.val none, 0)
    | RResp.http status body _ =>
      if status = 401 then
        match logins with
        | [] => (FetchOut.diverge, 0)
        | b :: ls =>
          if b then
            let o := get_account_details rs ls
            (o.1, o.2 + 1)
          else (FetchOut.val none, 1)
      else if status ≠ 200 then (FetchOut.val none, 0)
      else
        match body with
        | none => (FetchOut.val none, 0)
        | some d => (FetchOut.val (some d), 0)

/-- Result dictionary of `book_appointment`. -/
structure BookResult where
  success : Bool
  error : Option String
  deriving Repr, DecidableEq

/-- Embedding of `book_appointment` (booking_helper.py lines 216-283).  The
body field of a 200 response models `data.get("status", "")`: `none` is an
unparsable body (caught, line 277), `some st` the provider's business status.
The whole body sits in a try/except (line 281), so request exceptions become
failure results; the 401 path re-invokes itself with no bound (line 256), and
`none` output models an exhausted trace on that path. -/
def book_appointment : List (RResp String) → List Bool → Option BookResult
  | [], _ => none
  | r :: rs, logins =>
    match r with
    | RResp.raise e => some { success := false, error := some e }
    | RResp.http status body text =>
      if status = 401 then
        match logins with
        | [] => none
        | b :: ls =>
          if b then book_appointment rs ls
          else some { success := false, error := some "Authentication failed" }
      else if status ≠ 200 then some { success := false, error := some text }
      else
        match body with
        | none => some { success := false, error := some "Failed to parse booking response" }
        | some st =>
          if st = "B" then some { success := true, error := none }
          else some { success := false, error := some ("Booking returned status: " ++ st) }

/-! ## booking_helper.py, lines 293-664: async_booking_helper_service

The service is embedded as a pure function of its call data and an
environment describing the remote side.  The environment gives each remote
interaction's outcome directly (`PyResult`-valued, so a raising fetcher is
representable); the diverging 401 recursion is studied separately on the
trace-level fetchers above.  The coordinator lookup of lines 346-356 is
assumed to succeed (an environment always carries one coordinator). -/

/-- Call data of the service after the per-field `call.data.get` of lines
309-318; `none` stands for an absent key. -/
structure ServiceInput where
  venue_id : String
  target_date : Option Int
  target_day_of_week : Option Int
  target_time : Option String
  /-- The tolerance, given as the exact microsecond count of
  `timedelta(hours=tolerance_hours)`; the default 2.0 hours is
  7200000000 microseconds. -/
  tolerance_hours_us : Option Int
  procedure_code : Option String
  auto_book : Option Bool
  min_days_from_last_appointment : Option Int

/-- Environment of one service invocation: the clock, the coordinator cache,
the token state, and the outcome of each remote interaction. -/
structure HelperEnv where
  today : Int
  coordData : Option CoordData
  hasToken : Bool
  loginOk : Bool
  sessionsResult : PyResult (List RSession)
  slotsResult : String → String → PyResult (List RSlot)
  bookingResult : BookResult

/-- The `appointment` dictionary of the response (lines 536-546).  The
`day_of_week` display string is abstracted to the weekday index, and the
formatted `time_difference` string to its numeric value. -/
structure ApptData where
  date : Int
  day_of_week : Int
  time : String
  venue_id : String
  procedure : String
  session_id : String
  session_date : String
  session_time : String
  /-- The reported time difference, kept as the microsecond distance whose
  division by 3600 seconds the source formats for display. -/
  time_difference_us : Int
  deriving Repr, DecidableEq

/-- The structured response dictionary initialised at lines 301-306. -/
structure ResponseData where
  success : Bool
  message : String
  appointment : Option ApptData
  error : Option String
  deriving Repr, DecidableEq

/-- Observable outcome of one service invocation: the returned dictionary (or
an exception escaping the handler), and whether the post-booking cache
refresh of line 589 ran. -/
structure ServiceRun where
  result : PyResult ResponseData
  postBookRefresh : Bool
  deriving Repr, DecidableEq

/-- Embedding of lines 360-361: split the normalized time string on the colon
and build a `time(...)` value; a non-numeric part raises `ValueError`, and so
do out-of-range hour or minute values through the `time` constructor. -/
def parse_target_time (s : String) : PyResult (Int × Int) :=
  match splitOnColon s with
  | p0 :: p1 :: _ =>
    match pyInt p0, pyInt p1 with
    | some h, some m =>
      if 0 ≤ h ∧ h ≤ 23 ∧ 0 ≤ m ∧ m ≤ 59 then PyResult.ok (h, m)
      else PyResult.exn "ValueError: hour or minute out of range"
    | _, _ => PyResult.exn "ValueError: invalid literal for int with base 10"
  | _ => PyResult.exn "IndexError: list index out of range"

/-- A surviving slot of the expansion loop (lines 494-510), carrying the
fields the source attaches to the slot dictionary. -/
structure SlotC where
  slot : RSlot
  session_id : String
  session_date : String
  /-- The slot's `slot_datetime` in microseconds. -/
  slotUs : Int
  /-- The slot's `time_difference` ranking key, kept as the microsecond
  distance (the float hour value the source sorts by is strictly monotone in
  it, so ordering and ties coincide). -/
  time_difference_us : Int
  deriving Repr, DecidableEq

/-- Embedding of the per-slot body of the loop at lines 494-512: strip `T`
from the slot time, require at least 4 characters, parse hour and minute
(a `ValueError` or `TypeError` is caught at line 511 and the slot skipped),
and keep the slot only when its datetime lies within the tolerance window,
attaching the absolute distance to the target. -/
def process_slot (targetDate targetUs : Int) (startW endW : Int)
    (sid sdate : String) (slot : RSlot) : Option SlotC :=
  let ts := removeChar 'T' slot.time
  if 4 ≤ ts.length then
    match pyInt (strTake 2 ts), pyInt (strDrop 2 ts) with
    | some h, some m =>
      if 0 ≤ h ∧ h ≤ 23 ∧ 0 ≤ m ∧ m ≤ 59 then
        let slotUs := (targetDate * 86400 + h * 3600 + m * 60) * 1000000
        if startW ≤ slotUs ∧ slotUs ≤ endW then
          some { slot := slot, session_id := sid, session_date := sdate,
                 slotUs := slotUs,
                 time_difference_us := |slotUs - targetUs| }
        else none
      else none
    | _, _ => none
  else none

/-- Embedding of the session loop at lines 482-512: fetch the slot list of
each available session in order and accumulate the surviving slots; an
exception from a slot fetch escapes (to be caught by the service's top-level
handler). -/
def expand_slots (slotsOf : String → String → PyResult (List RSlot))
    (avail : List (String × String)) (targetDate targetUs : Int)
    (startW endW : Int) : PyResult (List SlotC) :=
  match avail with
  | [] => PyResult.ok []
  | (sid, sdate) :: rest =>
    match slotsOf sid sdate with
    | PyResult.exn e => PyResult.exn e
    | PyResult.ok slots =>
      match expand_slots slotsOf rest targetDate targetUs startW endW with
      | PyResult.exn e => PyResult.exn e
      | PyResult.ok acc =>
        PyResult.ok (slots.filterMap (process_slot targetDate targetUs startW endW sid sdate) ++ acc)

/-- Embedding of lines 527-530: stable-sort the surviving slots by their time
difference and take the first. -/
def select_best_slot (allSlots : List SlotC) : Option SlotC :=
  (sortK (fun s => s.time_difference_us) allSlots).head?

/-- Structured result produced by the top-level exception handler at lines
652-661: success false, the error text, no appointment. -/
def caught_response (e : String) : ServiceRun :=
  { result := PyResult.ok
      { success := false, message := "", appointment := none, error := some e },
    postBookRefresh := false }

/-- Embedding of lines 531-650: build the appointment dictionary for the best
slot and either auto-book it (reporting the booking outcome, attaching the
candidate either way, and refreshing the cache only on success) or report it
as a recommendation. -/
def booking_act_phase (inp : ServiceInput) (env : HelperEnv) (autoBook : Bool)
    (targetDate : Int) (best : SlotC) : ServiceRun :=
  let bestTimeStr := removeChar 'T' best.slot.time
  let bestTimeFormatted :=
    if 4 ≤ bestTimeStr.length then strTake 2 bestTimeStr ++ ":" ++ strDrop 2 bestTimeStr
    else bestTimeStr
  let apptData : ApptData :=
    { date := targetDate, day_of_week := weekday targetDate, time := bestTimeFormatted,
      venue_id := inp.venue_id, procedure := best.slot.procedureDescription,
      session_id := best.session_id, session_date := best.session_date,
      session_time := best.slot.time, time_difference_us := best.time_difference_us }
  if autoBook then
    if env.bookingResult.success then
      { result := PyResult.ok
          { success := true, message := "Appointment booked successfully",
            appointment := some apptData, error := none },
        postBookRefresh := true }
    else
      let errorMessage := env.bookingResult.error.getD "Unknown error"
      { result := PyResult.ok
          { success := false,
            message := "Failed to book appointment: " ++ errorMessage,
            appointment := some apptData, error := some errorMessage },
        postBookRefresh := false }
  else
    { result := PyResult.ok
        { success := true, message := "Found best available appointment (not booked)",
          appointment := some apptData, error := none },
      postBookRefresh := false }

/-- Embedding of the `try` block at lines 425-661: token check with one login
attempt, session query, availability filter, slot expansion, ranking, and the
act phase; every exception raised inside it is converted to a structured
result by the handler at line 652. -/
def booking_try_phase (inp : ServiceInput) (env : HelperEnv) (autoBook : Bool)
    (targetDate targetUs : Int) (startW endW : Int) : ServiceRun :=
  let tokenAfter := env.hasToken || env.loginOk
  if tokenAfter = false then
    { result := PyResult.ok
        { success := false, message := "", appointment := none,
          error := some "Failed to login to Blood Donor service" },
      postBookRefresh := false }
  else
    match env.sessionsResult with
    | PyResult.exn e => caught_response e
    | PyResult.ok sessions =>
      if sessions.isEmpty then
        { result := PyResult.ok
            { success := false,
              message := s!"No sessions available for {targetDate}.",
              appointment := none, error := some "No sessions available" },
          postBookRefresh := false }
      else
        let availableSessions :=
          (sessions.filter (fun s => s.periods.any (fun p => p.availableSlots > 0))).map
            (fun s => (s.sessionId, s.sessionDate))
        if availableSessions.isEmpty then
          { result := PyResult.ok
              { success := false,
                message := s!"No available appointment slots found for {targetDate}.",
                appointment := none, error := some "No available slots" },
            postBookRefresh := false }
        else
          match expand_slots env.slotsResult availableSessions targetDate targetUs startW endW with
          | PyResult.exn e => caught_response e
          | PyResult.ok allSlots =>
            if allSlots.isEmpty then
              { result := PyResult.ok
                  { success := false,
                    message := s!"No available slots found within tolerance on {targetDate}.",
                    appointment := none, error := some "No slots within tolerance window" },
                postBookRefresh := false }
            else
              match select_best_slot allSlots with
              | none => caught_response "IndexError: list index out of range"
              | some best => booking_act_phase inp env autoBook targetDate best

/-- Embedding of `async_booking_helper_service` (booking_helper.py lines
294-664).  Defaults are applied as at lines 309-318; the either-or validation
of line 335 produces a structured error; the target-time parse of lines
360-361 and the target-date resolution of lines 368-408 run before the `try`
of line 425, so an exception raised there escapes the handler; everything
from line 425 on is wrapped by the top-level handler. -/
def async_booking_helper_service (inp : ServiceInput) (env : HelperEnv) : ServiceRun :=
  let targetTimeStr := normalize_time inp.target_time
  let toleranceUs := inp.tolerance_hours_us.getD 7200000000
  let autoBook := inp.auto_book.getD false
  let minDays := inp.min_days_from_last_appointment.getD 14
  if inp.target_date = none ∧ inp.target_day_of_week = none then
    { result := PyResult.ok
        { success := false, message := "", appointment := none,
          error := some "Either target_date or target_day_of_week must be provided" },
      postBookRefresh := false }
  else
    match parse_target_time targetTimeStr with
    | PyResult.exn e => { result := PyResult.exn e, postBookRefresh := false }
    | PyResult.ok (th, tm) =>
      let earliest := earliest_allowed_date env.today minDays env.coordData
      match resolve_target_date earliest inp.target_date inp.target_day_of_week with
      | PyResult.exn e => { result := PyResult.exn e, postBookRefresh := false }
      | PyResult.ok targetDate =>
        let targetUs : Int := (targetDate * 86400 + th * 3600 + tm * 60) * 1000000
        let startW : Int := max (targetUs - toleranceUs) (targetDate * 86400 * 1000000)
        let endW : Int := min (targetUs + toleranceUs) ((targetDate * 86400 + 86399) * 1000000)
        booking_try_phase inp env autoBook targetDate targetUs startW endW

/-! ## Update scheduler: custom_components/blood_donor/utils.py and
custom_components/blood_donor/blood_donor.py lines 329-411 -/

/-- One cached appointment as the scheduler sees it: the parse outcome of its
`session.sessionDate` (`none` models a `KeyError` / `ValueError` /
`IndexError` inside the sort key), and its raw `time` field (the empty string
models an absent key, via `.get("time", "")`). -/
structure SchedAppt where
  dateParse : Option Int
  timeStr : String
  deriving Repr, DecidableEq

/-- Embedding of `get_next_appointment` (utils.py lines 5-19): `None` on an
empty list; otherwise a stable sort by parsed session date and the first
element; an exception while computing any sort key is caught and yields
`None`. -/
def get_next_appointment (appts : List SchedAppt) : Option SchedAppt :=
  if appts.isEmpty then none
  else if appts.all (fun a => a.dateParse.isSome) then
    (sortK (fun a => a.dateParse.getD 0) appts).head?
  else none

/-- The two polling intervals of the scheduler: standard is 24 hours,
near-appointment is 1 hour. -/
inductive ScanInterval where
  | standard
  | nearAppointment
  deriving Repr, DecidableEq

/-- Embedding of blood_donor.py lines 352-363: datetime of an appointment in
seconds, taking the parsed `time` field when it has at least four characters
(`none` models the `ValueError`/`TypeError` caught at line 396) and noon
otherwise. -/
def sched_appt_datetime (a : SchedAppt) (apptDate : Int) : Option Int :=
  let ts := removeChar 'T' a.timeStr
  if 4 ≤ ts.length then
    match pyInt (strTake 2 ts), pyInt (strDrop 2 ts) with
    | some h, some m =>
      if 0 ≤ h ∧ h ≤ 23 ∧ 0 ≤ m ∧ m ≤ 59 then
        some (apptDate * 86400 + h * 3600 + m * 60)
      else none
    | _, _ => none
  else some (apptDate * 86400 + 43200)

/-- Embedding of `_adjust_update_interval` (blood_donor.py lines 329-404),
returning the interval it selects.  `nowDay`/`nowSec` split `datetime.now()`
into its date and its seconds within the day; comparisons are exact in
seconds (more than 1 hour before is `untilSec > 3600`, up to 8 hours after is
`untilSec >= -28800`, within 4 hours is `untilSec <= 14400`). -/
def adjust_update_interval (appts : List SchedAppt) (nowDay nowSec : Int) : ScanInterval :=
  if appts.isEmpty then ScanInterval.standard
  else
    match get_next_appointment appts with
    | none => ScanInterval.standard
    | some a =>
      match a.dateParse with
      | none => ScanInterval.standard
      | some apptDate =>
        match sched_appt_datetime a apptDate with
        | none => ScanInterval.standard
        | some apptDT =>
          let untilSec := apptDT - (nowDay * 86400 + nowSec)
          if apptDate = nowDay then
            if untilSec > 3600 then ScanInterval.nearAppointment
            else if untilSec ≥ -28800 then ScanInterval.nearAppointment
            else ScanInterval.standard
          else if untilSec ≤ 14400 then ScanInterval.nearAppointment
          else ScanInterval.standard

/-- Embedding of `_set_update_interval` (blood_donor.py lines 406-411): the
new interval and whether the refresh timer was rescheduled, which happens
only when the interval actually changed. -/
def set_update_interval (current target : ScanInterval) : ScanInterval × Bool :=
  if current ≠ target then (target, true) else (current, false)

/-- Interval selection as the claim words it: the soonest appointment by
datetime (date plus time-of-day, noon when absent), and the near-appointment
interval exactly when the appointment is today and not more than 8 hours past,
or not today and within the NEXT 4 hours. -/
def claimed_update_interval (appts : List SchedAppt) (nowDay nowSec : Int) : ScanInterval :=
  let pairs := appts.filterMap (fun a =>
    a.dateParse.bind (fun d => (sched_appt_datetime a d).map (fun dt => (d, dt))))
  match firstMinK (fun p => p.2) pairs with
  | none => ScanInterval.standard
  | some p =>
    let untilSec := p.2 - (nowDay * 86400 + nowSec)
    if p.1 = nowDay then
      if untilSec > 3600 then ScanInterval.nearAppointment
      else if untilSec ≥ -28800 then ScanInterval.nearAppointment
      else ScanInterval.standard
    else if 0 ≤ untilSec ∧ untilSec ≤ 14400 then ScanInterval.nearAppointment
    else ScanInterval.standard

/-- Interval selection as the amended claim words it: the soonest appointment
by DATE only (first-encountered on ties, time-of-day not consulted for the
selection), standard when the list is empty or any date fails to parse or the
selected appointment's time field is present but unparsable, and otherwise
near-appointment exactly when the appointment is today and not more than
8 hours past, or not today with its datetime at most 4 hours ahead (past
dates included). -/
def amended_update_interval (appts : List SchedAppt) (nowDay nowSec : Int) : ScanInterval :=
  if appts.isEmpty ∨ ¬ appts.all (fun a => a.dateParse.isSome) then ScanInterval.standard
  else
    match firstMinK (fun a => a.dateParse.getD 0) appts with
    | none => ScanInterval.standard
    | some a =>
      match a.dateParse with
      | none => ScanInterval.standard
      | some apptDate =>
        match sched_appt_datetime a apptDate with
        | none => ScanInterval.standard
        | some apptDT =>
          let untilSec := apptDT - (nowDay * 86400 + nowSec)
          if apptDate = nowDay then
            if untilSec ≥ -28800 then ScanInterval.nearAppointment
            else ScanInterval.standard
          else if untilSec ≤ 14400 then ScanInterval.nearAppointment
          else ScanInterval.standard

/-! ## Supporting lemmas -/

theorem listMax_mem : ∀ (xs : List Int) (x : Int), listMax x xs ∈ x :: xs := by
  intro xs
  induction xs with
  | nil => intro x; simp [listMax]
  | cons y ys ih =>
    intro x
    have h1 : listMax x (y :: ys) = listMax (max x y) ys := rfl
    rw [h1]
    rcases List.mem_cons.mp (ih (max x y)) with h | h
    · rcases max_choice x y with hm | hm <;> rw [h, hm] <;> simp
    · simp [h]

theorem le_listMax : ∀ (xs : List Int) (x y : Int), y ∈ x :: xs → y ≤ listMax x xs := by
  intro xs
  induction xs with
  | nil =>
    intro x y hy
    simp at hy
    simp [listMax, hy]
  | cons z zs ih =>
    intro x y hy
    have h1 : listMax x (z :: zs) = listMax (max x z) zs := rfl
    have hm : max x z ≤ listMax (max x z) zs := ih (max x z) (max x z) (by simp)
    rw [h1]
    rcases List.mem_cons.mp hy with rfl | h
    · exact le_trans (le_max_left y z) hm
    · rcases List.mem_cons.mp h with rfl | h2
      · exact le_trans (le_max_right x y) hm
      · exact ih (max x z) y (by simp [h2])

theorem get_last_donation_date_eq (today : Int) (d : CoordData) (x : Int) (xs : List Int)
    (h : d.appointments.filterMap (fun a => a.sessionDateParse) = x :: xs) :
    get_last_donation_date today (some d) = some (listMax x xs) := by
  unfold get_last_donation_date
  cases happts : d.appointments with
  | nil => rw [happts] at h; simp at h
  | cons a as =>
    rw [happts] at h
    simp only [happts, h]

theorem get_last_donation_date_default (today : Int) (d : CoordData)
    (h : d.appointments = [] ∨ d.appointments.filterMap (fun a => a.sessionDateParse) = []) :
    get_last_donation_date today (some d) = some (today - 60) := by
  unfold get_last_donation_date
  cases happts : d.appointments with
  | nil => simp only [happts]
  | cons a as =>
    rcases h with h | h
    · rw [happts] at h; cases h
    · rw [happts] at h
      simp only [happts, h]

/-! ## Claim theorems -/

/-- C10: `normalize_time` is total on `None` and strings: `None` maps to
`"12:55"`; a trailing seconds component is stripped, colons are removed, the
remainder is zero-padded to four characters and split as `HH:MM`, so a one- or
two-character input is read as minutes past midnight rather than an hour, and
hour and minute ranges are not validated (`"99:99"` maps to `"99:99"`). -/
theorem normalize_time_spec :
    normalize_time none = "12:55" ∧
    normalize_time (some "12:55:00") = "12:55" ∧
    normalize_time (some "9") = "00:09" ∧
    normalize_time (some "45") = "00:45" ∧
    normalize_time (some "99:99") = "99:99" ∧
    (∀ s : String, s.toList.all Char.isDigit → s.length ≤ 2 →
      normalize_time (some s) = "00:" ++ zfill 2 s) := by
  refine ⟨rfl, by decide, by decide, by decide, by decide, ?_⟩
  intro s hd hl
  obtain ⟨l⟩ := s
  have hd2 : l.all Char.isDigit = true := hd
  have hl2 : l.length ≤ 2 := hl
  have hnc : ∀ c ∈ l, c ≠ ':' ∧ c ≠ '-' ∧ c ≠ '+' := by
    intro c hc
    have hcd : c.isDigit = true := List.all_eq_true.mp hd2 c hc
    refine ⟨?_, ?_, ?_⟩ <;> intro hcc <;> rw [hcc] at hcd <;> simp at hcd
  rcases l with _ | ⟨a, _ | ⟨b, _ | ⟨c, rest⟩⟩⟩
  · decide
  · obtain ⟨ha1, ha2, ha3⟩ := hnc a (by simp)
    simp [normalize_time, removeChar, zfill, strTake, strDrop, String.length,
      List.count_cons, ha1, ha2, ha3]
  · obtain ⟨ha1, ha2, ha3⟩ := hnc a (by simp)
    obtain ⟨hb1, hb2, hb3⟩ := hnc b (by simp)
    simp [normalize_time, removeChar, zfill, strTake, strDrop, String.length,
      List.count_cons, ha1, ha2, ha3, hb1, hb2, hb3]
  · simp at hl2

/-- Witness for C10 at the concrete one-character input `"7"`. -/
theorem normalize_time_spec_witness :
    normalize_time (some "7") = "00:" ++ zfill 2 "7" :=
  normalize_time_spec.2.2.2.2.2 "7" (by decide) (by decide)

/-- C7: the earliest allowed date is `max (last + min_days) today` where
`last` is the maximum parseable appointment date when at least one exists,
and `today - 60` when the appointment list is empty or no date parses; with
the default minimum of 14 days and no appointments it is exactly `today`. -/
theorem earliest_allowed_date_spec (today minDays : Int) (d : CoordData) :
    (∀ m, m ∈ d.appointments.filterMap (fun a => a.sessionDateParse) →
      (∀ y ∈ d.appointments.filterMap (fun a => a.sessionDateParse), y ≤ m) →
      earliest_allowed_date today minDays (some d) = max (m + minDays) today) ∧
    (d.appointments = [] →
      earliest_allowed_date today minDays (some d) = max (today - 60 + minDays) today) ∧
    (d.appointments.filterMap (fun a => a.sessionDateParse) = [] →
      earliest_allowed_date today minDays (some d) = max (today - 60 + minDays) today) ∧
    (minDays = 14 → d.appointments = [] →
      earliest_allowed_date today minDays (some d) = today) := by
  refine ⟨?_, ?_, ?_, ?_⟩
  · intro m hmem hub
    cases hfm : d.appointments.filterMap (fun a => a.sessionDateParse) with
    | nil => rw [hfm] at hmem; simp at hmem
    | cons x xs =>
      have hmax : listMax x xs = m :=
        le_antisymm (hub _ (hfm ▸ listMax_mem xs x)) (le_listMax xs x m (hfm ▸ hmem))
      simp [earliest_allowed_date, get_last_donation_date_eq today d x xs hfm, hmax]
  · intro h
    simp [earliest_allowed_date, get_last_donation_date_default today d (Or.inl h)]
  · intro h
    simp [earliest_allowed_date, get_last_donation_date_default today d (Or.inr h)]
  · intro h14 h
    simp [earliest_allowed_date, get_last_donation_date_default today d (Or.inl h), h14]
    omega

/-- Witness for C7 at a concrete appointment list: the dates 19733 and 19728
(Scenario A shape), today 19700, minimum 14 days. -/
theorem earliest_allowed_date_spec_witness :
    earliest_allowed_date 19700 14
        (some { appointments := [{ sessionDateParse := some 19733 },
                                 { sessionDateParse := some 19728 }] }) =
      max (19733 + 14) 19700 :=
  (earliest_allowed_date_spec 19700 14
      { appointments := [{ sessionDateParse := some 19733 },
                         { sessionDateParse := some 19728 }] }).1
    19733 (by decide) (by decide)

/-- C6: with a day-of-week target (and no explicit date) the resolved target
date is the unique date between the earliest allowed date and six days later
whose weekday is the requested one, and it equals the earliest allowed date
when that date already falls on the requested weekday. -/
theorem resolve_day_of_week_spec (earliest w : Int) (h0 : 0 ≤ w) (h7 : w < 7) :
    ∃ d, resolve_target_date earliest none (some w) = PyResult.ok d ∧
      earliest ≤ d ∧ d ≤ earliest + 6 ∧ weekday d = w ∧
      (∀ e, earliest ≤ e → e ≤ earliest + 6 → weekday e = w → e = d) ∧
      (weekday earliest = w → d = earliest) := by
  refine ⟨resolve_day_of_week earliest w, rfl, ?_, ?_, ?_, ?_, ?_⟩
  · unfold resolve_day_of_week days_to_add weekday
    split_ifs <;> omega
  · unfold resolve_day_of_week days_to_add weekday
    split_ifs <;> omega
  · unfold resolve_day_of_week days_to_add weekday
    split_ifs <;> omega
  · intro e he1 he2 he3
    unfold weekday at he3
    unfold resolve_day_of_week days_to_add weekday
    split_ifs <;> omega
  · intro hw
    unfold weekday at hw
    unfold resolve_day_of_week days_to_add weekday
    split_ifs
    all_goals omega

/-- Witness for C6: earliest date 20100 is a Thursday (weekday 3); requesting
weekday 3 resolves to 20100 itself, requesting Monday (0) would advance. -/
theorem resolve_day_of_week_spec_witness :
    ∃ d, resolve_target_date 20100 none (some 3) = PyResult.ok d ∧
      20100 ≤ d ∧ d ≤ 20100 + 6 ∧ weekday d = 3 ∧
      (∀ e, 20100 ≤ e → e ≤ 20100 + 6 → weekday e = 3 → e = d) ∧
      (weekday 20100 = 3 → d = 20100) :=
  resolve_day_of_week_spec 20100 3 (by decide) (by decide)

/-- C1: supplying an explicit target date does not make the engine use it;
the resolution block at lines 388-408 of booking_helper.py always runs and
reads the local variable day_of_week, which is assigned only in the
day-of-week branch, so the invocation raises UnboundLocalError before the
top-level handler's try block and the exception escapes the service. -/
theorem explicit_target_date_unbound_local :
    resolve_target_date 20114 (some 20250) none =
      PyResult.exn "UnboundLocalError: local variable day_of_week referenced before assignment" ∧
    (async_booking_helper_service
      { venue_id := "TB94A", target_date := some 20250, target_day_of_week := none,
        target_time := none, tolerance_hours_us := none, procedure_code := none,
        auto_book := none, min_days_from_last_appointment := none }
      { today := 20100, coordData := some { appointments := [] }, hasToken := true,
        loginOk := true, sessionsResult := PyResult.ok [],
        slotsResult := fun _ _ => PyResult.ok [],
        bookingResult := { success := false, error := none } }).result =
      PyResult.exn "UnboundLocalError: local variable day_of_week referenced before assignment" :=
  ⟨rfl, rfl⟩

/-- C3 counterexample: a backend that answers 401 three times while re-login
keeps succeeding makes a single `get_sessions_for_date` call perform three
`login()` calls and still not report a failure — the claimed one-relogin
bound and loop-freedom do not hold. -/
theorem get_sessions_multiple_relogins :
    get_sessions_for_date (List.replicate 3 (RResp.http 401 none ""))
        [true, true, true] =
      (FetchOut.diverge, 3) := by decide

/-- C3 amended: a 401 triggers a re-login; when the re-login fails the call
stops after that single attempt and reports the failure value, but when it
succeeds the request is retried and a further 401 repeats the cycle with no
bound — an always-401 backend with always-successful logins performs one
login per response consumed and never returns. -/
theorem auth_retry_unbounded :
    (∀ n : Nat, get_sessions_for_date (List.replicate n (RResp.http 401 none ""))
        (List.replicate n true) = (FetchOut.diverge, n)) ∧
    (∀ n : Nat, get_account_details (List.replicate n (RResp.http 401 none ""))
        (List.replicate n true) = (FetchOut.diverge, n)) ∧
    (∀ (rs : List (RResp (List RSession))) (logins : List Bool),
      get_sessions_for_date (RResp.http 401 none "" :: rs) (false :: logins) =
        (FetchOut.val [], 1)) ∧
    (∀ (rs : List (RResp CoordData)) (logins : List Bool),
      get_account_details (RResp.http 401 none "" :: rs) (false :: logins) =
        (FetchOut.val none, 1)) := by
  refine ⟨?_, ?_, ?_, ?_⟩
  · intro n
    induction n with
    | zero => rfl
    | succ k ih => simp [List.replicate_succ, get_sessions_for_date, ih]
  · intro n
    induction n with
    | zero => rfl
    | succ k ih => simp [List.replicate_succ, get_account_details, ih]
  · intro rs logins
    simp [get_sessions_for_date]
  · intro rs logins
    simp [get_account_details]

/-- C4 counterexample: a timeout raised while requesting escapes both
`get_sessions_for_date` and `get_slots_for_session` instead of producing an
empty list (neither function has a try/except). -/
theorem get_sessions_timeout_escapes :
    get_sessions_for_date [RResp.raise "TimeoutError"] [] =
      (FetchOut.raise "TimeoutError", 0) ∧
    get_slots_for_session [RResp.raise "TimeoutError"] [] =
      (FetchOut.raise "TimeoutError", 0) :=
  ⟨rfl, rfl⟩

/-- C4 amended: both fetchers return the empty list (never a null) on a
non-200 non-401 response and on a 401 whose re-login fails, but a request
exception (timeout, connection failure) and an unparsable 200 body raise out
of the function, to be handled by the booking helper's top-level handler. -/
theorem fetchers_failure_modes :
    (∀ (status : Nat) (body : Option (List RSession)) (text : String)
        (rs : List (RResp (List RSession))) (logins : List Bool),
      status ≠ 401 → status ≠ 200 →
      get_sessions_for_date (RResp.http status body text :: rs) logins =
        (FetchOut.val [], 0)) ∧
    (∀ (body : Option (List RSession)) (text : String) rs (logins : List Bool),
      get_sessions_for_date (RResp.http 401 body text :: rs) (false :: logins) =
        (FetchOut.val [], 1)) ∧
    (∀ (text : String) rs (logins : List Bool),
      get_sessions_for_date (RResp.http 200 none text :: rs) logins =
        (FetchOut.raise "JSONDecodeError", 0)) ∧
    (∀ (e : String) rs (logins : List Bool),
      get_sessions_for_date (RResp.raise e :: rs) logins = (FetchOut.raise e, 0)) ∧
    (∀ (status : Nat) (body : Option (List RSlot)) (text : String)
        (rs : List (RResp (List RSlot))) (logins : List Bool),
      status ≠ 401 → status ≠ 200 →
      get_slots_for_session (RResp.http status body text :: rs) logins =
        (FetchOut.val [], 0)) ∧
    (∀ (body : Option (List RSlot)) (text : String) rs (logins : List Bool),
      get_slots_for_session (RResp.http 401 body text :: rs) (false :: logins) =
        (FetchOut.val [], 1)) ∧
    (∀ (text : String) rs (logins : List Bool),
      get_slots_for_session (RResp.http 200 none text :: rs) logins =
        (FetchOut.raise "JSONDecodeError", 0)) ∧
    (∀ (e : String) rs (logins : List Bool),
      get_slots_for_session (RResp.raise e :: rs) logins = (FetchOut.raise e, 0)) := by
  refine ⟨?_, ?_, ?_, ?_, ?_, ?_, ?_, ?_⟩
  all_goals intros
  all_goals simp_all [get_sessions_for_date, get_slots_for_session]

/-- Witness for C4 at a concrete 500 response. -/
theorem fetchers_failure_modes_witness :
    get_sessions_for_date [RResp.http 500 none "server error"] [] =
      (FetchOut.val [], 0) :=
  fetchers_failure_modes.1 500 none "server error" [] [] (by decide) (by decide)

/-- Every branch of the top-level try block produces a structured result,
whatever the environment does. -/
theorem booking_try_phase_structured (inp : ServiceInput) (env : HelperEnv)
    (autoBook : Bool) (targetDate targetUs startW endW : Int) :
    ∃ rd, (booking_try_phase inp env autoBook targetDate targetUs startW endW).result =
      PyResult.ok rd := by
  unfold booking_try_phase caught_response booking_act_phase
  simp only []
  repeat' split
  all_goals exact ⟨_, rfl⟩

/-- C5: the slot the ranking step returns is a surviving slot with minimal
distance to the target time, and it is exactly the first surviving slot
attaining that minimum (Python's sort is stable and no secondary tiebreak
exists); the selection is a pure function of the surviving slots, so
identical data yields the identical choice. -/
theorem select_best_slot_spec (l : List SlotC) (h : l ≠ []) :
    ∃ b, select_best_slot l = some b ∧ b ∈ l ∧
      (∀ s ∈ l, b.time_difference_us ≤ s.time_difference_us) ∧
      firstMinK (fun s => s.time_difference_us) l = some b := by
  obtain ⟨b, hb⟩ := firstMinK_isSome (fun s => s.time_difference_us) l h
  refine ⟨b, ?_, firstMinK_mem _ l b hb, firstMinK_min _ l b hb, hb⟩
  unfold select_best_slot
  rw [head_sortK]
  exact hb

/-- The two surviving slots of spec Scenario D (12:20 and 13:40 against a
12:55 target): distances 35 and 45 minutes. -/
def scenarioD_slots : List SlotC :=
  [{ slot := { time := "T1220", procedureDescription := "Whole Blood" },
     session_id := "S1", session_date := "2025-07-01T00:00:00",
     slotUs := 44400000000, time_difference_us := 2100000000 },
   { slot := { time := "T1340", procedureDescription := "Whole Blood" },
     session_id := "S1", session_date := "2025-07-01T00:00:00",
     slotUs := 49200000000, time_difference_us := 2700000000 }]

/-- Witness for C5 on the Scenario D slot list. -/
theorem select_best_slot_spec_witness :
    ∃ b, select_best_slot scenarioD_slots = some b ∧ b ∈ scenarioD_slots ∧
      (∀ s ∈ scenarioD_slots, b.time_difference_us ≤ s.time_difference_us) ∧
      firstMinK (fun s => s.time_difference_us) scenarioD_slots = some b :=
  select_best_slot_spec scenarioD_slots (by decide)

/-- C2 counterexample: a target time whose minute part is not numeric raises
`ValueError` at the `int(...)` of line 361, which sits before the
try of line 425, so the exception escapes the service handler instead of
being converted to a structured result. -/
theorem booking_helper_pre_try_exception_escapes :
    (async_booking_helper_service
      { venue_id := "TB94A", target_date := none, target_day_of_week := some 2,
        target_time := some "ab", tolerance_hours_us := none, procedure_code := none,
        auto_book := none, min_days_from_last_appointment := none }
      { today := 20100, coordData := some { appointments := [] }, hasToken := true,
        loginOk := true, sessionsResult := PyResult.ok [],
        slotsResult := fun _ _ => PyResult.ok [],
        bookingResult := { success := false, error := none } }).result =
      PyResult.exn "ValueError: invalid literal for int with base 10" :=
  rfl

/-- C2 amended: once the pre-try phase succeeds — the normalized target time
parses and the target date is resolved through the day-of-week branch — the
invocation always returns the structured result dictionary, whatever the
remote side does (including raising fetchers); exceptions raised while
parsing the target time or resolving the target date, which happen before
the try of line 425, are the only ones that escape. -/
theorem booking_helper_structured_after_resolution (inp : ServiceInput) (env : HelperEnv)
    (hdate : inp.target_date = none) (w : Int) (hdow : inp.target_day_of_week = some w)
    (htime : ∃ p, parse_target_time (normalize_time inp.target_time) = PyResult.ok p) :
    ∃ rd, (async_booking_helper_service inp env).result = PyResult.ok rd := by
  obtain ⟨⟨th, tm⟩, hp⟩ := htime
  unfold async_booking_helper_service
  simp only [hdate, hdow, hp, resolve_target_date]
  exact booking_try_phase_structured inp env _ _ _ _ _

/-- Witness for C2 amended: concrete input with a raising session fetch, and
the default target time; the run still returns a structured dictionary. -/
theorem booking_helper_structured_after_resolution_witness :
    ∃ rd, (async_booking_helper_service
      { venue_id := "TB94A", target_date := none, target_day_of_week := some 2,
        target_time := none, tolerance_hours_us := none, procedure_code := none,
        auto_book := none, min_days_from_last_appointment := none }
      { today := 20100, coordData := some { appointments := [] }, hasToken := true,
        loginOk := true, sessionsResult := PyResult.exn "TimeoutError",
        slotsResult := fun _ _ => PyResult.exn "TimeoutError",
        bookingResult := { success := false, error := none } }).result =
      PyResult.ok rd :=
  booking_helper_structured_after_resolution _ _ rfl 2 rfl ⟨(12, 55), rfl⟩

/-- With auto-booking on, the try block's refresh flag agrees with the
reported success in every branch. -/
theorem booking_try_phase_refresh_iff (inp : ServiceInput) (env : HelperEnv)
    (targetDate targetUs startW endW : Int) (rd : ResponseData)
    (h : (booking_try_phase inp env true targetDate targetUs startW endW).result =
      PyResult.ok rd) :
    ((booking_try_phase inp env true targetDate targetUs startW endW).postBookRefresh = true ↔
      rd.success = true) := by
  revert h
  unfold booking_try_phase caught_response booking_act_phase
  simp only []
  repeat' split
  all_goals intro h
  all_goals simp at h
  all_goals subst h
  all_goals simp_all

/-- Scenario E input: auto-book the closest Thursday slot. -/
def scenarioE_input : ServiceInput :=
  { venue_id := "TB94A", target_date := none, target_day_of_week := some 3,
    target_time := none, tolerance_hours_us := none, procedure_code := none,
    auto_book := some true, min_days_from_last_appointment := none }

/-- Scenario E environment: one session with availability, one 12:30 slot,
and a booking whose provider status is `"P"` (pending, HTTP 200). -/
def scenarioE_env_pending : HelperEnv :=
  { today := 20100, coordData := some { appointments := [] }, hasToken := true,
    loginOk := true,
    sessionsResult := PyResult.ok
      [{ sessionId := "S1", sessionDate := "2025-07-01T00:00:00",
         periods := [{ availableSlots := 3 }] }],
    slotsResult := fun _ _ =>
      PyResult.ok [{ time := "T1230", procedureDescription := "Whole Blood" }],
    bookingResult := { success := false, error := some "Booking returned status: P" } }

/-- Scenario E environment with a confirmed (`"B"`) booking. -/
def scenarioE_env_booked : HelperEnv :=
  { scenarioE_env_pending with bookingResult := { success := true, error := none } }

/-- The candidate appointment found in Scenario E. -/
def scenarioE_appt : ApptData :=
  { date := 20100, day_of_week := 3, time := "12:30",
    venue_id := "TB94A", procedure := "Whole Blood", session_id := "S1",
    session_date := "2025-07-01T00:00:00", session_time := "T1230",
    time_difference_us := 1500000000 }

/-- C8: `book_appointment` reports success exactly when the HTTP status is
200 and the provider's business status field is `"B"`; with auto-booking on,
the post-booking cache refresh runs exactly when the reported result is a
success; and in the concrete Scenario E a provider status `"P"` under HTTP
200 yields a failure that carries the provider's status, still attaches the
found candidate, and triggers no refresh, while status `"B"` yields success
and a refresh. -/
theorem book_appointment_success_iff :
    (∀ (r : RResp String) (logins : List Bool) (result : BookResult),
      book_appointment [r] logins = some result →
      (result.success = true ↔ ∃ t, r = RResp.http 200 (some "B") t)) ∧
    (∀ (inp : ServiceInput) (env : HelperEnv) (rd : ResponseData),
      (async_booking_helper_service inp env).result = PyResult.ok rd →
      inp.auto_book = some true →
      ((async_booking_helper_service inp env).postBookRefresh = true ↔
        rd.success = true)) ∧
    book_appointment [RResp.http 200 (some "P") ""] [] =
      some { success := false, error := some "Booking returned status: P" } ∧
    ((async_booking_helper_service scenarioE_input scenarioE_env_pending).result =
      PyResult.ok
        { success := false,
          message := "Failed to book appointment: Booking returned status: P",
          appointment := some scenarioE_appt,
          error := some "Booking returned status: P" } ∧
     (async_booking_helper_service scenarioE_input scenarioE_env_pending).postBookRefresh =
       false) ∧
    ((async_booking_helper_service scenarioE_input scenarioE_env_booked).result =
      PyResult.ok
        { success := true, message := "Appointment booked successfully",
          appointment := some scenarioE_appt, error := none } ∧
     (async_booking_helper_service scenarioE_input scenarioE_env_booked).postBookRefresh =
       true) := by
  refine ⟨?_, ?_, by decide, ⟨by decide, by decide⟩, ⟨by decide, by decide⟩⟩
  · intro r logins result h
    cases r with
    | raise e =>
      have hr : result = { success := false, error := some e } := by
        have := h.symm
        simpa [book_appointment] using this
      subst hr
      simp
    | http status body text =>
      by_cases h401 : status = 401
      · subst h401
        cases logins with
        | nil => simp [book_appointment] at h
        | cons b ls =>
          cases b with
          | false =>
            have hr : result = { success := false, error := some "Authentication failed" } := by
              have := h.symm
              simpa [book_appointment] using this
            subst hr
            simp
          | true => simp [book_appointment] at h
      · by_cases h200 : status = 200
        · subst h200
          cases body with
          | none =>
            have hr : result =
                { success := false, error := some "Failed to parse booking response" } := by
              have := h.symm
              simpa [book_appointment] using this
            subst hr
            simp
          | some st =>
            by_cases hB : st = "B"
            · subst hB
              have hr : result = { success := true, error := none } := by
                have := h.symm
                simpa [book_appointment] using this
              subst hr
              simp only [true_iff]
              exact ⟨text, rfl⟩
            · have hr : result =
                  { success := false, error := some ("Booking returned status: " ++ st) } := by
                have := h.symm
                simpa [book_appointment, hB] using this
              subst hr
              simp [hB]
        · have hr : result = { success := false, error := some text } := by
            have := h.symm
            simpa [book_appointment, h401, h200] using this
          subst hr
          simp [h200]
  · intro inp env rd h hb
    revert h
    unfold async_booking_helper_service
    simp only [hb, Option.getD]
    repeat' split
    all_goals intro h
    all_goals first
      | exact booking_try_phase_refresh_iff inp env _ _ _ _ rd h
      | (simp at h; subst h; simp)
      | simp at h

/-- Witness for C8: the confirmed-status response and the Scenario E booked
run, with every hypothesis discharged concretely. -/
theorem book_appointment_success_iff_witness :
    (({ success := true, error := none } : BookResult).success = true ↔
      ∃ t, (RResp.http 200 (some "B") "x" : RResp String) = RResp.http 200 (some "B") t) ∧
    ((async_booking_helper_service scenarioE_input scenarioE_env_booked).postBookRefresh = true ↔
      ({ success := true, message := "Appointment booked successfully",
         appointment := some scenarioE_appt, error := none } : ResponseData).success = true) :=
  ⟨book_appointment_success_iff.1 (RResp.http 200 (some "B") "x") []
      { success := true, error := none } rfl,
   book_appointment_success_iff.2.1 scenarioE_input scenarioE_env_booked
      { success := true, message := "Appointment booked successfully",
        appointment := some scenarioE_appt, error := none } (by decide) rfl⟩

/-- C9 counterexample, two concrete refutations of the claimed interval
table.  First: a single appointment yesterday at 23:00 observed at 00:30
today is not "within the NEXT 4 hours", yet the code selects the 1-hour
near-appointment interval because its fourth rule tests only
`time_until <= 4h`, which holds for any past datetime on a non-today date.
Second: two appointments on today's date at 23:50 and 04:00 observed at
16:00 — the soonest by datetime is 04:00 (over 8 hours past, so the claimed
table says standard), but the code selects by date only, picks the
first-listed 23:50 one and chooses the near-appointment interval. -/
theorem adjust_update_interval_counterexample :
    (adjust_update_interval [{ dateParse := some 100, timeStr := "2300" }] 101 1800 =
        ScanInterval.nearAppointment ∧
      claimed_update_interval [{ dateParse := some 100, timeStr := "2300" }] 101 1800 =
        ScanInterval.standard) ∧
    (adjust_update_interval
        [{ dateParse := some 200, timeStr := "2350" },
         { dateParse := some 200, timeStr := "0400" }] 200 57600 =
        ScanInterval.nearAppointment ∧
      claimed_update_interval
        [{ dateParse := some 200, timeStr := "2350" },
         { dateParse := some 200, timeStr := "0400" }] 200 57600 =
        ScanInterval.standard) := by
  refine ⟨⟨by decide, by decide⟩, ⟨by decide, by decide⟩⟩

/-- C9 amended: on every refresh the scheduler selects the soonest
appointment by DATE only (stable, first-listed on ties; time-of-day is used
only to place the selected appointment within its day, defaulting to noon
when absent) and selects the near-appointment interval exactly when that
appointment is today and at most 8 hours past, or is on another date with
its datetime at most 4 hours ahead — a test that also fires for past
non-today dates; in all other cases, including an empty list and any
unparsable date or time, it selects the standard interval; and the refresh
timer is rescheduled exactly when the interval changed. -/
theorem adjust_update_interval_amended (appts : List SchedAppt) (nowDay nowSec : Int) :
    adjust_update_interval appts nowDay nowSec =
      amended_update_interval appts nowDay nowSec ∧
    (∀ cur tgt, (set_update_interval cur tgt).2 = true ↔ cur ≠ tgt) ∧
    (∀ cur tgt, (set_update_interval cur tgt).1 = tgt) := by
  refine ⟨?_, ?_, ?_⟩
  · unfold adjust_update_interval amended_update_interval get_next_appointment
    by_cases hE : appts.isEmpty
    · simp [hE]
    · by_cases hA : appts.all (fun a => a.dateParse.isSome)
      · rw [head_sortK]
        simp only [hE, hA, eq_self_iff_true, if_true, ite_true, not_true_eq_false, or_self,
          Bool.false_eq_true, if_false, ite_false]
        cases hfm : firstMinK (fun a => a.dateParse.getD 0) appts with
        | none => rfl
        | some a =>
          dsimp only
          cases hdp : a.dateParse with
          | none => rfl
          | some apptDate =>
            dsimp only
            cases hdt : sched_appt_datetime a apptDate with
            | none => rfl
            | some apptDT =>
              dsimp only
              by_cases hToday : apptDate = nowDay
              · simp only [hToday, ite_true, if_true]
                split_ifs <;> first | rfl | omega
              · simp only [hToday, ite_false, if_false]
      · simp [hE, hA]
  · intro cur tgt
    by_cases h : cur = tgt <;> simp [set_update_interval, h]
  · intro cur tgt
    by_cases h : cur = tgt <;> simp [set_update_interval, h]

end BloodDonor
